import Mathlib

/-!
Shallow embedding of `flang/lib/Lower/Runtime.cpp`: the lowering layer that
turns Fortran STOP / ERROR STOP / PAUSE statements and the ASSOCIATED /
RANDOM_INIT / RANDOM_NUMBER / RANDOM_SEED intrinsics into calls against the
Fortran runtime support library.

The embedding models the FIR builder as an explicit state (a list of finished
basic blocks plus the current insertion block), MLIR values as a small
inductive closed under the value-creating builder operations used in the file
(`createConvert`, `createIntegerConstant`, `locationToFilename`,
`locationToLineNo`, call results), and each driver of the file as a pure
function from builder state to builder state, in the `Except` monad so that
the two compilation-aborting paths (`mlir::emitError` + `std::exit`, and
`llvm::report_fatal_error`) are visible as error results.
-/

namespace Flang

/-- A source location: the (file, line) pair queryable from the converter.
Mirrors `mlir::Location` as used in this file (only `locationToFilename` and
`locationToLineNo` inspect it). -/
structure Location where
  file : String
  line : Nat
  deriving Repr, DecidableEq

/-- The formal-parameter representations that occur in the runtime entry
signatures used by this file. -/
inductive MType where
  | intTy      -- an integer value (stop code, source line)
  | boolTy     -- an i1 / logical flag
  | charPtrTy  -- a pointer to character data
  | lenTy      -- a character length value
  | boxTy      -- a boxed/descriptor argument (pointer, target, harvest, seed array)
  deriving Repr, DecidableEq

/-- The runtime entries referenced by `Runtime.cpp` via `mkRTKey`. -/
inductive RTEntry where
  | StopStatement
  | StopStatementText
  | PauseStatement
  | PointerIsAssociatedWith
  | RandomInit
  | RandomNumber
  | RandomSeedDefaultPut
  | RandomSeedSize
  | RandomSeedPut
  | RandomSeedGet
  deriving Repr, DecidableEq

/-- Modelled from the spec: the fixed formal-parameter lists of the runtime
entries. The declaring headers (`flang/Runtime/stop.h`, `random.h`,
`pointer.h`) are not part of the given sources; the counts and per-position
roles follow the spec's external-interface table (section 6): termination
takes the code operand(s) then the isError and isQuiet flags; pause and
seed-default-set take nothing; the pointer-association query takes the
pointer and target; random-init takes two flags; number generation and the
seed size/put/get entries take the data argument followed by the source file
and source line. -/
def inputs : RTEntry → List MType
  | .StopStatement => [.intTy, .boolTy, .boolTy]
  | .StopStatementText => [.charPtrTy, .lenTy, .boolTy, .boolTy]
  | .PauseStatement => []
  | .PointerIsAssociatedWith => [.boxTy, .boxTy]
  | .RandomInit => [.boolTy, .boolTy]
  | .RandomNumber => [.boxTy, .charPtrTy, .intTy]
  | .RandomSeedDefaultPut => []
  | .RandomSeedSize => [.boxTy, .charPtrTy, .intTy]
  | .RandomSeedPut => [.boxTy, .charPtrTy, .intTy]
  | .RandomSeedGet => [.boxTy, .charPtrTy, .intTy]

/-- `calleeType.getInput i` on the resolved entry's function type. -/
def getInput (e : RTEntry) (i : Nat) : MType := (inputs e).getD i .intTy

/-- An MLIR value as visible to this file: either an SSA value produced by an
external collaborator (expression evaluation, caller-supplied operands),
identified by an id, or a value produced by one of the builder helpers this
file calls. -/
inductive Value where
  | raw (id : Nat)                                          -- produced upstream
  | intConst (ty : MType) (n : Int)                         -- createIntegerConstant
  | convert (ty : MType) (v : Value)                        -- createConvert
  | srcFile (f : String)                                    -- locationToFilename
  | srcLine (ty : MType) (n : Nat)                          -- locationToLineNo
  | callResult (e : RTEntry) (args : List Value) (idx : Nat) -- CallOp result
  deriving Repr

/-- `fir::FirOpBuilder::createConvert`: cast a value to the given type. -/
def createConvert (ty : MType) (v : Value) : Value := .convert ty v

/-- `fir::FirOpBuilder::createIntegerConstant`. -/
def createIntegerConstant (ty : MType) (n : Int) : Value := .intConst ty n

/-- `fir::factory::locationToFilename`. -/
def locationToFilename (loc : Location) : Value := .srcFile loc.file

/-- `fir::factory::locationToLineNo`: a constant of the requested type
holding the line number. -/
def locationToLineNo (loc : Location) (ty : MType) : Value := .srcLine ty loc.line

/-- `fir::runtime::createArguments`: convert each actual to the type of the
corresponding formal of the resolved entry's function type. -/
def createArguments (e : RTEntry) (vs : List Value) : List Value :=
  (vs.zip (inputs e)).map fun p => createConvert p.2 p.1

/-- The representation a value carries after marshaling (`none` for values
whose type this layer never inspected). -/
def Value.mtype : Value → Option MType
  | .raw _ => none
  | .intConst ty _ => some ty
  | .convert ty _ => some ty
  | .srcFile _ => some .charPtrTy
  | .srcLine ty _ => some ty
  | .callResult .. => none

/-- Whether a value is derived from the current source location (the
filename string or the line-number constant, possibly behind conversions). -/
def Value.mentionsLoc : Value → Bool
  | .srcFile _ => true
  | .srcLine _ _ => true
  | .convert _ v => v.mentionsLoc
  | _ => false

/-- The instructions this file inserts into the IR. -/
inductive Op where
  | call (loc : Location) (callee : RTEntry) (args : List Value)
  | unreachable (loc : Location)
  deriving Repr

/-- The location-independent shape of an instruction. -/
inductive OpShape where
  | call (callee : RTEntry) (args : List Value)
  | unreachable
  deriving Repr

/-- Erase the source location of an instruction. -/
def Op.shape : Op → OpShape
  | .call _ e args => .call e args
  | .unreachable _ => .unreachable

/-- The builder state: the basic blocks already terminated (in program
order) and the ops of the block currently holding the insertion point. -/
structure Builder where
  done : List (List Op)
  cur : List Op
  deriving Repr

/-- Insert one op at the current insertion point. -/
def Builder.push (b : Builder) (op : Op) : Builder :=
  { b with cur := b.cur ++ [op] }

/-- `genUnreachable`: terminate the current block with an unreachable op,
split off a fresh empty block and move the insertion point to its start. -/
def genUnreachable (b : Builder) (loc : Location) : Builder :=
  let b := b.push (.unreachable loc)
  { done := b.done ++ [b.cur], cur := [] }

/-- The two ways this file aborts compilation: a user-surfaced diagnostic
attached to a source location (`mlir::emitError` followed by `std::exit(1)`)
or a fatal internal error (`llvm::report_fatal_error`). -/
inductive Failure where
  | userError (loc : Location) (msg : String)
  | fatalInternal (msg : String)
  deriving Repr

/-- `StopStmt::Kind`. -/
inductive StopKind where
  | stop
  | errorStop
  deriving Repr, DecidableEq

/-- The classification of an already-evaluated stop-code expression, i.e.
the variants distinguished by the `expr.match` in `genStopStatement`: a
`fir::CharBoxValue` (address and length), a `fir::UnboxedValue` (a single
scalar), or any other `fir::ExtendedValue` alternative (the catch-all
handler). -/
inductive ExtendedValue where
  | charBox (addr len : Value)
  | unboxed (x : Value)
  | other (id : Nat)
  deriving Repr

/-- A STOP / ERROR STOP statement after its operand expressions have been
evaluated by the expression-evaluation collaborator (`genExprValue`, which
is outside this file): the statement kind, the optional stop code already
classified as an `ExtendedValue`, and the optional QUIET operand's base
value. -/
structure StopStmt where
  kind : StopKind
  code : Option ExtendedValue
  quiet : Option Value
  deriving Repr

/-- The tail of `genStopStatement` shared by all stop-code alternatives:
append the isError flag, append the QUIET flag (a converted operand when
present, an integer constant 0 when absent), emit the call, and terminate
the block via `genUnreachable`. -/
def genStopTail (b : Builder) (loc : Location) (stmt : StopStmt)
    (callee : RTEntry) (operands : List Value) : Builder :=
  let isError : Bool := stmt.kind = StopKind.errorStop
  let operands := operands ++
    [createIntegerConstant (getInput callee operands.length)
      (if isError then 1 else 0)]
  let operands :=
    match stmt.quiet with
    | some q => operands ++ [createConvert (getInput callee operands.length) q]
    | none => operands ++
        [createIntegerConstant (getInput callee operands.length) 0]
  genUnreachable (b.push (.call loc callee operands)) loc

/-- `genStopStatement`: classify the optional stop code, resolve the runtime
entry, marshal the code operand(s) and both flags, emit the call and
terminate the block. An unsupported stop-code classification surfaces as a
source-located diagnostic that aborts compilation. -/
def genStopStatement (b : Builder) (loc : Location) (stmt : StopStmt) :
    Except Failure Builder :=
  match stmt.code with
  | some ev =>
    match ev with
    | .charBox addr len =>
      let callee := RTEntry.StopStatementText
      let operands := [createConvert (getInput callee 0) addr,
                       createConvert (getInput callee 1) len]
      .ok (genStopTail b loc stmt callee operands)
    | .unboxed x =>
      let callee := RTEntry.StopStatement
      let operands := [createConvert (getInput callee 0) x]
      .ok (genStopTail b loc stmt callee operands)
    | .other _ => .error (.userError loc "unhandled expression in STOP")
  | none =>
    let callee := RTEntry.StopStatement
    let operands := [createIntegerConstant (getInput callee 0) 0]
    .ok (genStopTail b loc stmt callee operands)

/-- `genPauseStatement`: a single call to the pause entry with no actuals. -/
def genPauseStatement (b : Builder) (loc : Location) : Except Failure Builder :=
  .ok (b.push (.call loc .PauseStatement []))

/-- `genAssociated`: one call to the pointer-association entry with the two
marshaled actuals; returns the call's first result to the caller. -/
def genAssociated (b : Builder) (loc : Location) (pointer target : Value) :
    Except Failure (Builder × Value) :=
  let func := RTEntry.PointerIsAssociatedWith
  let args := createArguments func [pointer, target]
  .ok (b.push (.call loc func args), Value.callResult func args 0)

/-- `genRandomInit`: one call to the random-init entry with the two
marshaled flag actuals. -/
def genRandomInit (b : Builder) (loc : Location)
    (repeatable imageDistinct : Value) : Except Failure Builder :=
  let func := RTEntry.RandomInit
  let args := createArguments func [repeatable, imageDistinct]
  .ok (b.push (.call loc func args))

/-- `genRandomNumber`: one call to the number-generation entry with the
harvest argument and the synthesized source file / source line operands. -/
def genRandomNumber (b : Builder) (loc : Location) (harvest : Value) :
    Except Failure Builder :=
  let func := RTEntry.RandomNumber
  let sourceFile := locationToFilename loc
  let sourceLine := locationToLineNo loc (getInput func 2)
  let args := createArguments func [harvest, sourceFile, sourceLine]
  .ok (b.push (.call loc func args))

/-- `genRandomSeed`: dispatch on the declared-argument-position index
(`-1` when no argument is present); any index outside `{-1, 0, 1, 2}` is a
fatal internal error. -/
def genRandomSeed (b : Builder) (loc : Location) (argIndex : Int)
    (argBox : Value) : Except Failure Builder :=
  if argIndex = -1 then
    .ok (b.push (.call loc .RandomSeedDefaultPut []))
  else if argIndex = 0 ∨ argIndex = 1 ∨ argIndex = 2 then
    let func : RTEntry :=
      if argIndex = 0 then .RandomSeedSize
      else if argIndex = 1 then .RandomSeedPut
      else .RandomSeedGet
    let sourceFile := locationToFilename loc
    let sourceLine := locationToLineNo loc (getInput func 2)
    let args := createArguments func [argBox, sourceFile, sourceLine]
    .ok (b.push (.call loc func args))
  else
    .error (.fatalInternal "invalid RANDOM_SEED argument index")

/-- The marshaling invariant on an emitted call: the actual list has the
arity of the entry's formal list and each actual carries exactly the formal
representation at its position. -/
def argsTyped (e : RTEntry) (args : List Value) : Prop :=
  args.map Value.mtype = (inputs e).map some

/-- C1: `genStopStatement` selects the runtime entry by stop-code
classification: a textual (character) stop code selects the
`StopStatementText` entry, a scalar-unboxed stop code selects the
`StopStatement` entry, and an absent stop code selects the `StopStatement`
entry with a synthesized integer-zero first actual. -/
theorem stop_entry_selection (b : Builder) (loc : Location) (k : StopKind)
    (a l x : Value) (oq : Option Value) :
    (∃ args, genStopStatement b loc ⟨k, some (.charBox a l), oq⟩ =
      .ok (genUnreachable (b.push (.call loc .StopStatementText args)) loc)) ∧
    (∃ args, genStopStatement b loc ⟨k, some (.unboxed x), oq⟩ =
      .ok (genUnreachable (b.push (.call loc .StopStatement args)) loc)) ∧
    (∃ rest, genStopStatement b loc ⟨k, none, oq⟩ =
      .ok (genUnreachable (b.push (.call loc .StopStatement
        (createIntegerConstant (getInput .StopStatement 0) 0 :: rest))) loc)) := by
  cases oq <;> exact ⟨⟨_, rfl⟩, ⟨_, rfl⟩, ⟨_, rfl⟩⟩

/-- C2: every termination call carries both trailing flag actuals: the
isError actual is the boolean constant that is 1 exactly when the statement
kind is ErrorStop, and the isQuiet actual is the converted quiet operand
when present and the integer constant 0 when absent — for every combination
of stop-code shape and quiet presence. -/
theorem stop_flag_operands (b : Builder) (loc : Location) (k : StopKind)
    (a l x : Value) (oq : Option Value) :
    (genStopStatement b loc ⟨k, some (.charBox a l), oq⟩ =
      .ok (genUnreachable (b.push (.call loc .StopStatementText
        [createConvert .charPtrTy a, createConvert .lenTy l,
         createIntegerConstant .boolTy (if k = StopKind.errorStop then 1 else 0),
         (match oq with
          | some q => createConvert .boolTy q
          | none => createIntegerConstant .boolTy 0)])) loc)) ∧
    (genStopStatement b loc ⟨k, some (.unboxed x), oq⟩ =
      .ok (genUnreachable (b.push (.call loc .StopStatement
        [createConvert .intTy x,
         createIntegerConstant .boolTy (if k = StopKind.errorStop then 1 else 0),
         (match oq with
          | some q => createConvert .boolTy q
          | none => createIntegerConstant .boolTy 0)])) loc)) ∧
    (genStopStatement b loc ⟨k, none, oq⟩ =
      .ok (genUnreachable (b.push (.call loc .StopStatement
        [createIntegerConstant .intTy 0,
         createIntegerConstant .boolTy (if k = StopKind.errorStop then 1 else 0),
         (match oq with
          | some q => createConvert .boolTy q
          | none => createIntegerConstant .boolTy 0)])) loc)) := by
  cases k <;> cases oq <;> exact ⟨rfl, rfl, rfl⟩

/-- C3: a textual stop code yields exactly two code actuals (address then
length) before the flags, so the call has four actuals; a scalar-unboxed or
absent stop code yields one code actual, so the call has three actuals. -/
theorem stop_code_actual_arity (b : Builder) (loc : Location) (k : StopKind)
    (a l x : Value) (oq : Option Value) :
    (∃ args, genStopStatement b loc ⟨k, some (.charBox a l), oq⟩ =
        .ok (genUnreachable (b.push (.call loc .StopStatementText args)) loc) ∧
      args.length = 4 ∧
      args.take 2 = [createConvert (getInput .StopStatementText 0) a,
                     createConvert (getInput .StopStatementText 1) l]) ∧
    (∃ args, genStopStatement b loc ⟨k, some (.unboxed x), oq⟩ =
        .ok (genUnreachable (b.push (.call loc .StopStatement args)) loc) ∧
      args.length = 3 ∧
      args.take 1 = [createConvert (getInput .StopStatement 0) x]) ∧
    (∃ args, genStopStatement b loc ⟨k, none, oq⟩ =
        .ok (genUnreachable (b.push (.call loc .StopStatement args)) loc) ∧
      args.length = 3 ∧
      args.take 1 = [createIntegerConstant (getInput .StopStatement 0) 0]) := by
  cases oq <;> exact ⟨⟨_, rfl, rfl, rfl⟩, ⟨_, rfl, rfl, rfl⟩, ⟨_, rfl, rfl, rfl⟩⟩

/-- C4: every call emitted by any driver in this file has an actual list
whose arity equals the resolved entry's formal count and whose actuals each
carry the formal representation at their position (`argsTyped`). -/
theorem call_marshaling_invariant (b : Builder) (loc : Location) (k : StopKind)
    (a l x p t rep dist harvest box : Value) (oq : Option Value) :
    (∃ args, genStopStatement b loc ⟨k, some (.charBox a l), oq⟩ =
        .ok (genUnreachable (b.push (.call loc .StopStatementText args)) loc) ∧
      argsTyped .StopStatementText args) ∧
    (∃ args, genStopStatement b loc ⟨k, some (.unboxed x), oq⟩ =
        .ok (genUnreachable (b.push (.call loc .StopStatement args)) loc) ∧
      argsTyped .StopStatement args) ∧
    (∃ args, genStopStatement b loc ⟨k, none, oq⟩ =
        .ok (genUnreachable (b.push (.call loc .StopStatement args)) loc) ∧
      argsTyped .StopStatement args) ∧
    (∃ args, genPauseStatement b loc = .ok (b.push (.call loc .PauseStatement args)) ∧
      argsTyped .PauseStatement args) ∧
    (∃ args v, genAssociated b loc p t =
        .ok (b.push (.call loc .PointerIsAssociatedWith args), v) ∧
      argsTyped .PointerIsAssociatedWith args) ∧
    (∃ args, genRandomInit b loc rep dist = .ok (b.push (.call loc .RandomInit args)) ∧
      argsTyped .RandomInit args) ∧
    (∃ args, genRandomNumber b loc harvest = .ok (b.push (.call loc .RandomNumber args)) ∧
      argsTyped .RandomNumber args) ∧
    (∃ args, genRandomSeed b loc (-1) box =
        .ok (b.push (.call loc .RandomSeedDefaultPut args)) ∧
      argsTyped .RandomSeedDefaultPut args) ∧
    (∃ args, genRandomSeed b loc 0 box = .ok (b.push (.call loc .RandomSeedSize args)) ∧
      argsTyped .RandomSeedSize args) ∧
    (∃ args, genRandomSeed b loc 1 box = .ok (b.push (.call loc .RandomSeedPut args)) ∧
      argsTyped .RandomSeedPut args) ∧
    (∃ args, genRandomSeed b loc 2 box = .ok (b.push (.call loc .RandomSeedGet args)) ∧
      argsTyped .RandomSeedGet args) := by
  cases oq <;>
    exact ⟨⟨_, rfl, rfl⟩, ⟨_, rfl, rfl⟩, ⟨_, rfl, rfl⟩, ⟨_, rfl, rfl⟩,
      ⟨_, _, rfl, rfl⟩, ⟨_, rfl, rfl⟩, ⟨_, rfl, rfl⟩, ⟨_, rfl, rfl⟩,
      ⟨_, rfl, rfl⟩, ⟨_, rfl, rfl⟩, ⟨_, rfl, rfl⟩⟩

/-- C10: `genAssociated` emits exactly one call to the pointer-association
entry with the two marshaled actuals (pointer then target) and returns the
call's first result value to its caller. -/
theorem associated_call_and_result (b : Builder) (loc : Location)
    (pointer target : Value) :
    genAssociated b loc pointer target =
      .ok (b.push (.call loc .PointerIsAssociatedWith
            [createConvert .boxTy pointer, createConvert .boxTy target]),
        Value.callResult .PointerIsAssociatedWith
          [createConvert .boxTy pointer, createConvert .boxTy target] 0) := rfl

/-- C5: `genUnreachable` appends an unreachable terminator to the current
block and redirects insertion to a fresh empty block; `genStopStatement`
invokes it immediately after its call, while every other driver only
appends a single call op to the current block and never terminates it. -/
theorem stop_block_termination (b : Builder) (loc : Location) (stmt : StopStmt)
    (p t rep dist harvest box : Value) (i : Int) :
    ((genUnreachable b loc).cur = [] ∧
      (genUnreachable b loc).done = b.done ++ [b.cur ++ [Op.unreachable loc]]) ∧
    (∀ bfin, genStopStatement b loc stmt = .ok bfin →
      ∃ e args, bfin = genUnreachable (b.push (.call loc e args)) loc) ∧
    (genPauseStatement b loc = .ok (b.push (.call loc .PauseStatement []))) ∧
    (∃ args v, genAssociated b loc p t =
      .ok (b.push (.call loc .PointerIsAssociatedWith args), v)) ∧
    (∃ args, genRandomInit b loc rep dist =
      .ok (b.push (.call loc .RandomInit args))) ∧
    (∃ args, genRandomNumber b loc harvest =
      .ok (b.push (.call loc .RandomNumber args))) ∧
    (∀ bfin, genRandomSeed b loc i box = .ok bfin →
      ∃ e args, bfin = b.push (.call loc e args)) ∧
    (∀ (b2 : Builder) (op : Op), (b2.push op).done = b2.done) := by
  refine ⟨⟨rfl, rfl⟩, ?_, rfl, ⟨_, _, rfl⟩, ⟨_, rfl⟩, ⟨_, rfl⟩, ?_,
    fun b2 op => rfl⟩
  · obtain ⟨k, c, q⟩ := stmt
    intro bfin h
    match c with
    | some (.charBox a l) =>
      injection h with h
      exact ⟨_, _, h.symm⟩
    | some (.unboxed x) =>
      injection h with h
      exact ⟨_, _, h.symm⟩
    | some (.other n) => exact Except.noConfusion h
    | none =>
      injection h with h
      exact ⟨_, _, h.symm⟩
  · intro bfin h
    simp only [genRandomSeed] at h
    split at h
    · injection h with h
      exact ⟨_, _, h.symm⟩
    · split at h
      · injection h with h
        exact ⟨_, _, h.symm⟩
      · exact Except.noConfusion h

/-- Witness for C5: the random-seed driver at index 0 extends the current
block by one call op. -/
theorem stop_block_termination_w :
    ∃ e args, (⟨[], [Op.call ⟨"f", 1⟩ .RandomSeedSize
        [Value.convert .boxTy (.raw 0), .convert .charPtrTy (.srcFile "f"),
         .convert .intTy (.srcLine .intTy 1)]]⟩ : Builder) =
      Builder.push ⟨[], []⟩ (.call ⟨"f", 1⟩ e args) :=
  (stop_block_termination ⟨[], []⟩ ⟨"f", 1⟩ ⟨.stop, none, none⟩
    (.raw 0) (.raw 0) (.raw 0) (.raw 0) (.raw 0) (.raw 0)
    0).2.2.2.2.2.2.1 _ rfl

/-- C6: `genRandomSeed` maps index -1 to the seed default-set entry with
zero actuals, index 0 to the seed-size entry, index 1 to the seed-put entry
and index 2 to the seed-get entry (each with actuals argBox, sourceFile,
sourceLine), and any other index to a fatal internal error with no call
emitted. -/
theorem random_seed_dispatch (b : Builder) (loc : Location) (argBox : Value) :
    (genRandomSeed b loc (-1) argBox =
      .ok (b.push (.call loc .RandomSeedDefaultPut []))) ∧
    (genRandomSeed b loc 0 argBox = .ok (b.push (.call loc .RandomSeedSize
      (createArguments .RandomSeedSize [argBox, locationToFilename loc,
        locationToLineNo loc (getInput .RandomSeedSize 2)])))) ∧
    (genRandomSeed b loc 1 argBox = .ok (b.push (.call loc .RandomSeedPut
      (createArguments .RandomSeedPut [argBox, locationToFilename loc,
        locationToLineNo loc (getInput .RandomSeedPut 2)])))) ∧
    (genRandomSeed b loc 2 argBox = .ok (b.push (.call loc .RandomSeedGet
      (createArguments .RandomSeedGet [argBox, locationToFilename loc,
        locationToLineNo loc (getInput .RandomSeedGet 2)])))) ∧
    (∀ i : Int, i ≠ -1 → i ≠ 0 → i ≠ 1 → i ≠ 2 →
      genRandomSeed b loc i argBox =
        .error (.fatalInternal "invalid RANDOM_SEED argument index")) := by
  refine ⟨rfl, rfl, rfl, rfl, ?_⟩
  intro i h1 h2 h3 h4
  simp [genRandomSeed, h1, h2, h3, h4]

/-- Witness for C6: index 5 aborts with the fatal internal error. -/
theorem random_seed_dispatch_w :
    genRandomSeed ⟨[], []⟩ ⟨"f", 1⟩ 5 (Value.raw 0) =
      .error (.fatalInternal "invalid RANDOM_SEED argument index") :=
  (random_seed_dispatch ⟨[], []⟩ ⟨"f", 1⟩ (Value.raw 0)).2.2.2.2 5
    (by decide) (by decide) (by decide) (by decide)

/-- C7: the unsupported stop-code classification is the only failure of
`genStopStatement` and it surfaces as a source-located user diagnostic;
`genRandomSeed` is the only other driver that can fail and it fails only
with a fatal internal error; the remaining drivers never fail. -/
theorem user_diagnostic_only_for_stop (b : Builder) (loc : Location) :
    (∀ stmt e, genStopStatement b loc stmt = .error e →
      (∃ n, stmt.code = some (.other n)) ∧
        e = .userError loc "unhandled expression in STOP") ∧
    (∀ (i : Int) (box : Value) e, genRandomSeed b loc i box = .error e →
      e = .fatalInternal "invalid RANDOM_SEED argument index") ∧
    (∀ e, genPauseStatement b loc ≠ .error e) ∧
    (∀ p t e, genAssociated b loc p t ≠ .error e) ∧
    (∀ r d e, genRandomInit b loc r d ≠ .error e) ∧
    (∀ h e, genRandomNumber b loc h ≠ .error e) := by
  refine ⟨?_, ?_, ?_, ?_, ?_, ?_⟩
  · rintro ⟨k, c, q⟩ e h
    match c with
    | some (.charBox a l) => exact Except.noConfusion h
    | some (.unboxed x) => exact Except.noConfusion h
    | some (.other n) =>
      injection h with h
      exact ⟨⟨n, rfl⟩, h.symm⟩
    | none => exact Except.noConfusion h
  · intro i box e h
    simp only [genRandomSeed] at h
    split at h
    · exact Except.noConfusion h
    · split at h
      · exact Except.noConfusion h
      · injection h with h
        exact h.symm
  · intro e h
    exact Except.noConfusion h
  · intro p t e h
    exact Except.noConfusion h
  · intro r d e h
    exact Except.noConfusion h
  · intro hv e h
    exact Except.noConfusion h

/-- Witness for C7: a stop code classified as neither textual nor unboxed
aborts with the source-located diagnostic. -/
theorem user_diagnostic_only_for_stop_w :
    (∃ n, (StopStmt.mk .stop (some (.other 0)) none).code =
      some (.other n)) ∧
    Failure.userError ⟨"f", 1⟩ "unhandled expression in STOP" =
      .userError ⟨"f", 1⟩ "unhandled expression in STOP" :=
  (user_diagnostic_only_for_stop ⟨[], []⟩ ⟨"f", 1⟩).1
    ⟨.stop, some (.other 0), none⟩ _ rfl

/-- C8: the source-file and source-line operands are the two trailing
actuals of exactly the number-generation and seed size/put/get calls; the
termination, pause, seed default-set, random-init and pointer-association
calls carry no location-derived actual. -/
theorem source_location_operands (b : Builder) (loc : Location) (k : StopKind)
    (a l x p t rep dist harvest box : Value) (oq : Option Value)
    (ha : a.mentionsLoc = false) (hl : l.mentionsLoc = false)
    (hx : x.mentionsLoc = false)
    (hoq : ∀ q, oq = some q → q.mentionsLoc = false)
    (hp : p.mentionsLoc = false) (ht : t.mentionsLoc = false)
    (hrep : rep.mentionsLoc = false) (hdist : dist.mentionsLoc = false)
    (hharv : harvest.mentionsLoc = false) (hbox : box.mentionsLoc = false) :
    (∃ args, genStopStatement b loc ⟨k, some (.charBox a l), oq⟩ =
        .ok (genUnreachable (b.push (.call loc .StopStatementText args)) loc) ∧
      args.all (fun v => !v.mentionsLoc) = true) ∧
    (∃ args, genStopStatement b loc ⟨k, some (.unboxed x), oq⟩ =
        .ok (genUnreachable (b.push (.call loc .StopStatement args)) loc) ∧
      args.all (fun v => !v.mentionsLoc) = true) ∧
    (∃ args, genStopStatement b loc ⟨k, none, oq⟩ =
        .ok (genUnreachable (b.push (.call loc .StopStatement args)) loc) ∧
      args.all (fun v => !v.mentionsLoc) = true) ∧
    (genPauseStatement b loc = .ok (b.push (.call loc .PauseStatement []))) ∧
    (genRandomSeed b loc (-1) box =
      .ok (b.push (.call loc .RandomSeedDefaultPut []))) ∧
    (∃ args, genRandomInit b loc rep dist =
        .ok (b.push (.call loc .RandomInit args)) ∧
      args.all (fun v => !v.mentionsLoc) = true) ∧
    (∃ args v, genAssociated b loc p t =
        .ok (b.push (.call loc .PointerIsAssociatedWith args), v) ∧
      args.all (fun v => !v.mentionsLoc) = true) ∧
    (∃ args, genRandomNumber b loc harvest =
        .ok (b.push (.call loc .RandomNumber args)) ∧
      args.map Value.mentionsLoc = [false, true, true]) ∧
    (∃ args, genRandomSeed b loc 0 box =
        .ok (b.push (.call loc .RandomSeedSize args)) ∧
      args.map Value.mentionsLoc = [false, true, true]) ∧
    (∃ args, genRandomSeed b loc 1 box =
        .ok (b.push (.call loc .RandomSeedPut args)) ∧
      args.map Value.mentionsLoc = [false, true, true]) ∧
    (∃ args, genRandomSeed b loc 2 box =
        .ok (b.push (.call loc .RandomSeedGet args)) ∧
      args.map Value.mentionsLoc = [false, true, true]) := by
  cases oq with
  | none =>
    exact ⟨⟨_, rfl, by simp [Value.mentionsLoc, ha, hl]⟩,
      ⟨_, rfl, by simp [Value.mentionsLoc, hx]⟩,
      ⟨_, rfl, by simp [Value.mentionsLoc]⟩, rfl, rfl,
      ⟨_, rfl, by simp [createArguments, createConvert, inputs, Value.mentionsLoc, hrep, hdist]⟩,
      ⟨_, _, rfl, by simp [createArguments, createConvert, inputs, Value.mentionsLoc, hp, ht]⟩,
      ⟨_, rfl, by simp [createArguments, createConvert, inputs, locationToFilename, locationToLineNo, Value.mentionsLoc, hharv]⟩,
      ⟨_, rfl, by simp [createArguments, createConvert, inputs, locationToFilename, locationToLineNo, Value.mentionsLoc, hbox]⟩,
      ⟨_, rfl, by simp [createArguments, createConvert, inputs, locationToFilename, locationToLineNo, Value.mentionsLoc, hbox]⟩,
      ⟨_, rfl, by simp [createArguments, createConvert, inputs, locationToFilename, locationToLineNo, Value.mentionsLoc, hbox]⟩⟩
  | some q =>
    have hq : q.mentionsLoc = false := hoq q rfl
    exact ⟨⟨_, rfl, by simp [Value.mentionsLoc, ha, hl, hq]⟩,
      ⟨_, rfl, by simp [Value.mentionsLoc, hx, hq]⟩,
      ⟨_, rfl, by simp [Value.mentionsLoc, hq]⟩, rfl, rfl,
      ⟨_, rfl, by simp [createArguments, createConvert, inputs, Value.mentionsLoc, hrep, hdist]⟩,
      ⟨_, _, rfl, by simp [createArguments, createConvert, inputs, Value.mentionsLoc, hp, ht]⟩,
      ⟨_, rfl, by simp [createArguments, createConvert, inputs, locationToFilename, locationToLineNo, Value.mentionsLoc, hharv]⟩,
      ⟨_, rfl, by simp [createArguments, createConvert, inputs, locationToFilename, locationToLineNo, Value.mentionsLoc, hbox]⟩,
      ⟨_, rfl, by simp [createArguments, createConvert, inputs, locationToFilename, locationToLineNo, Value.mentionsLoc, hbox]⟩,
      ⟨_, rfl, by simp [createArguments, createConvert, inputs, locationToFilename, locationToLineNo, Value.mentionsLoc, hbox]⟩⟩

/-- Witness for C8: the number-generation call at a concrete location has
its two location operands as the trailing actuals and nowhere else. -/
theorem source_location_operands_w :
    ∃ args, genRandomNumber ⟨[], []⟩ ⟨"f", 1⟩ (Value.raw 0) =
        .ok (Builder.push ⟨[], []⟩ (.call ⟨"f", 1⟩ .RandomNumber args)) ∧
      args.map Value.mentionsLoc = [false, true, true] :=
  (source_location_operands ⟨[], []⟩ ⟨"f", 1⟩ .stop (.raw 0) (.raw 0) (.raw 0)
    (.raw 0) (.raw 0) (.raw 0) (.raw 0) (.raw 0) (.raw 0) none
    rfl rfl rfl (fun q h => by cases h) rfl rfl rfl rfl rfl
    rfl).2.2.2.2.2.2.2.1

/-- C9: lowering the same termination statement twice, from any two builder
states and locations, succeeds or fails together, and on success emits a
call to the same entry with the identical actual list followed by the
terminator — the emitted ops differ only in their stamped location. -/
theorem stop_lowering_idempotent (b1 b2 : Builder) (loc1 loc2 : Location)
    (stmt : StopStmt) :
    ((∃ bf, genStopStatement b1 loc1 stmt = .ok bf) ↔
      (∃ bf, genStopStatement b2 loc2 stmt = .ok bf)) ∧
    (∀ bf1 bf2, genStopStatement b1 loc1 stmt = .ok bf1 →
      genStopStatement b2 loc2 stmt = .ok bf2 →
      ∃ e args, bf1 = genUnreachable (b1.push (.call loc1 e args)) loc1 ∧
        bf2 = genUnreachable (b2.push (.call loc2 e args)) loc2) := by
  obtain ⟨k, c, q⟩ := stmt
  match c with
  | some (.charBox a l) =>
    refine ⟨⟨fun _ => ⟨_, rfl⟩, fun _ => ⟨_, rfl⟩⟩, ?_⟩
    intro bf1 bf2 h1 h2
    injection h1 with h1
    injection h2 with h2
    exact ⟨_, _, h1.symm, h2.symm⟩
  | some (.unboxed x) =>
    refine ⟨⟨fun _ => ⟨_, rfl⟩, fun _ => ⟨_, rfl⟩⟩, ?_⟩
    intro bf1 bf2 h1 h2
    injection h1 with h1
    injection h2 with h2
    exact ⟨_, _, h1.symm, h2.symm⟩
  | some (.other n) =>
    refine ⟨⟨fun h => ?_, fun h => ?_⟩, fun bf1 bf2 h1 h2 => ?_⟩
    · exact absurd h.choose_spec (by simp [genStopStatement])
    · exact absurd h.choose_spec (by simp [genStopStatement])
    · exact Except.noConfusion h1
  | none =>
    refine ⟨⟨fun _ => ⟨_, rfl⟩, fun _ => ⟨_, rfl⟩⟩, ?_⟩
    intro bf1 bf2 h1 h2
    injection h1 with h1
    injection h2 with h2
    exact ⟨_, _, h1.symm, h2.symm⟩

/-- Witness for C9: `STOP` with no operands lowered at two different
locations yields the same entry and actual list, ops differing only in
location. -/
theorem stop_lowering_idempotent_w :
    ∃ e args,
      (⟨[[Op.call ⟨"f", 1⟩ .StopStatement
          [Value.intConst .intTy 0, .intConst .boolTy 0, .intConst .boolTy 0],
        Op.unreachable ⟨"f", 1⟩]], []⟩ : Builder) =
        genUnreachable (Builder.push ⟨[], []⟩ (.call ⟨"f", 1⟩ e args)) ⟨"f", 1⟩ ∧
      (⟨[[Op.call ⟨"g", 2⟩ .StopStatement
          [Value.intConst .intTy 0, .intConst .boolTy 0, .intConst .boolTy 0],
        Op.unreachable ⟨"g", 2⟩]], []⟩ : Builder) =
        genUnreachable (Builder.push ⟨[], []⟩ (.call ⟨"g", 2⟩ e args)) ⟨"g", 2⟩ :=
  (stop_lowering_idempotent ⟨[], []⟩ ⟨[], []⟩ ⟨"f", 1⟩ ⟨"g", 2⟩
    ⟨.stop, none, none⟩).2 _ _ rfl rfl

end Flang
